import Mathlib

/-!
# Top-Streaming-Movies: verification of the ingestion pipeline

Shallow embedding of the repository's three pipeline stages
(`step1_build_catalog.py`, `step2_update_providers.py`, `step3_fetch_omdb.py`)
together with proofs of the specification's testable properties.

Conventions of the embedding:
* SQLite tables are lists of typed rows; `INSERT OR REPLACE` and
  `DELETE`/`INSERT` sequences are functions on those lists.
* Network calls are oracles: pure functions from the request (and, where the
  source retries, the attempt number) to a response value, an HTTP error
  status, or a transport error.
* Python `None` is `Option.none`; Python truthiness of strings/ints is made
  explicit (`none` and `""`/`0` are falsy).
* Wall-clock timestamps (`datetime.now().isoformat()`) are passed in as
  opaque string parameters; `time.sleep` calls are recorded as log events
  (durations in hundredths of a second).
* Floating-point payload values (popularity, vote averages, ratings) are
  carried as their source strings; no property below depends on float
  arithmetic, only on presence (`none`/`some`) and on payload equality.
-/

namespace TopStreamingMovies

/-- Python truthiness for an optional string: `None` and `""` are falsy. -/
def truthyStr : Option String → Bool
  | none => false
  | some s => s ≠ ""

/-- Python `a or b` on optional strings (used by `upsert_movie` for
`details.get("imdb_id") or details.get("external_ids", {}).get("imdb_id")`). -/
def pyOrStr (a b : Option String) : Option String :=
  if truthyStr a then a else b

/-! ## The `movie` table (`step1_build_catalog.py`, `init_db` / `upsert_movie`) -/

/-- One row of the `movie` table.  The first twelve fields are the columns
created by `init_db` plus `omdb_last_updated`; `imdb_rating`, `imdb_votes`
and `omdb_raw_json` are the columns the OMDb stage reads and writes (they are
not created by `init_db`; which columns a concrete database actually has is
tracked separately as a column-name list, see `init_db_columns`). -/
structure MovieRow where
  id : Nat
  tmdb_id : Option Nat
  imdb_id : Option String
  title : Option String
  original_title : Option String
  year : Option String
  overview : Option String
  runtime : Option Nat
  popularity : Option String
  tmdb_vote_avg : Option String
  tmdb_vote_count : Option Int
  poster_path : Option String
  created_at : Option String
  omdb_last_updated : Option String
  imdb_rating : Option String
  imdb_votes : Option Int
  omdb_raw_json : Option String
deriving DecidableEq, Repr

/-- Column names of the `movie` table as created by `init_db` in
`step1_build_catalog.py` (the `CREATE TABLE IF NOT EXISTS movie` statement). -/
def init_db_columns : List String :=
  ["id", "tmdb_id", "imdb_id", "title", "original_title", "year", "overview",
   "runtime", "popularity", "tmdb_vote_avg", "tmdb_vote_count", "poster_path",
   "created_at", "omdb_last_updated"]

/-- The detail record returned by TMDb's `/movie/{id}` endpoint, restricted to
the fields `upsert_movie` reads. -/
structure Details where
  id : Nat
  imdb_id : Option String
  external_ids_imdb_id : Option String
  title : Option String
  original_title : Option String
  release_date : Option String
  overview : Option String
  runtime : Option Nat
  popularity : Option String
  vote_average : Option String
  vote_count : Option Int
  poster_path : Option String
deriving DecidableEq, Repr

/-- Largest `id` (SQLite rowid) present in the table, `0` when empty. -/
def maxId (tbl : List MovieRow) : Nat :=
  (tbl.map (·.id)).foldr max 0

/-- The row written by `upsert_movie`'s `INSERT OR REPLACE` for payload `d`:
the eleven listed columns come from the payload, `created_at` from its SQL
default, and every column absent from the column list (`omdb_last_updated`,
`imdb_rating`, `imdb_votes`, `omdb_raw_json`) is NULL.  The `year` column
stores `(details.get("release_date") or "0000")[:4]`. -/
def movieRowOf (d : Details) (newId : Nat) (createdAt : String) : MovieRow :=
  { id := newId
    tmdb_id := some d.id
    imdb_id := pyOrStr d.imdb_id d.external_ids_imdb_id
    title := d.title
    original_title := d.original_title
    year := (pyOrStr d.release_date (some "0000")).map (fun s => s.take 4)
    overview := d.overview
    runtime := d.runtime
    popularity := d.popularity
    tmdb_vote_avg := d.vote_average
    tmdb_vote_count := d.vote_count
    poster_path := d.poster_path
    created_at := some createdAt
    omdb_last_updated := none
    imdb_rating := none
    imdb_votes := none
    omdb_raw_json := none }

/-- `upsert_movie` from `step1_build_catalog.py`.  `if not details: return`
skips a missing payload.  The `INSERT OR REPLACE INTO movie (tmdb_id, ...)`
first allocates the new rowid (one more than the largest rowid in use, with
the conflicting row still present), then deletes every row violating the
`tmdb_id UNIQUE` constraint, then inserts the new row. -/
def upsert_movie (details : Option Details) (createdAt : String)
    (tbl : List MovieRow) : List MovieRow :=
  match details with
  | none => tbl
  | some d =>
    let newId := maxId tbl + 1
    tbl.filter (fun r => r.tmdb_id ≠ some d.id) ++ [movieRowOf d newId createdAt]

/-! ## OMDb enrichment (`step3_fetch_omdb.py`) -/

/-- An OMDb response body (`resp.json()`), restricted to the keys the code
reads; `extra` carries the rest of the payload opaquely so that
`json_dumps` depends on the whole body. -/
structure OmdbData where
  Response : Option String
  Error : Option String
  imdbID : Option String
  imdbRating : Option String
  imdbVotes : Option String
  extra : List (String × String)
deriving DecidableEq, Repr

/-- `json.dumps(omdb_data)`: a total rendering of the body to a string.  The
only facts used below are that it is a function of the body and is never
NULL. -/
def json_dumps (d : OmdbData) : String :=
  let f : String → Option String → String := fun k v =>
    match v with
    | none => "\x7b" ++ k ++ ": null\x7d"
    | some s => "\x7b" ++ k ++ ": " ++ s ++ "\x7d"
  f "Response" d.Response ++ f "Error" d.Error ++ f "imdbID" d.imdbID ++
    f "imdbRating" d.imdbRating ++ f "imdbVotes" d.imdbVotes ++
    String.join (d.extra.map (fun p => f p.1 (some p.2)))

/-- Acceptance of `float(s)` restricted to plain decimal literals
(optional sign, digits, optional fractional part).  CPython additionally
accepts exponents, `inf`/`nan` and surrounding whitespace; OMDb rating
strings are plain decimals, and no property below depends on this
predicate's value. -/
def isPyFloat (s : String) : Bool :=
  let l := s.toList
  let l := match l with
    | '+' :: t => t
    | '-' :: t => t
    | t => t
  match (l.splitOn '.') with
  | [a] => a ≠ [] && a.all Char.isDigit
  | [a, b] => (a ≠ [] || b ≠ []) && a.all Char.isDigit && b.all Char.isDigit
  | _ => false

/-- `int(s)` on a comma-stripped vote string: optional sign then digits. -/
def pyInt? (s : String) : Option Int :=
  let l := s.toList
  let (sign, digits) : Int × List Char :=
    match l with
    | '+' :: t => (1, t)
    | '-' :: t => (-1, t)
    | t => (1, t)
  if digits ≠ [] && digits.all Char.isDigit then
    some (sign * (digits.foldl (fun n c => n * 10 + (c.toNat - 48)) 0 : Nat))
  else
    none

/-- `parse_imdb_rating` from `step3_fetch_omdb.py`.  `if not raw or raw ==
"N/A"` nulls the field; otherwise `float(raw)` either succeeds or
(`ValueError`) nulls it.  The parsed float is represented by its accepted
source literal; no property compares rating values numerically. -/
def parse_imdb_rating (raw : Option String) : Option String :=
  if ¬ truthyStr raw ∨ raw = some "N/A" then none
  else match raw with
    | some s => if isPyFloat s then some s else none
    | none => none

/-- `parse_imdb_votes`: null on falsy/"N/A", else `int(raw.replace(",", ""))`
with `ValueError` degraded to null. -/
def parse_imdb_votes (raw : Option String) : Option Int :=
  if ¬ truthyStr raw ∨ raw = some "N/A" then none
  else match raw with
    | some s => pyInt? (String.mk (s.toList.filter (fun c => c ≠ ',')))
    | none => none

/-- `update_movie_with_omdb`: the row-level effect of the
`UPDATE movie SET imdb_id = COALESCE(?, imdb_id), imdb_rating = ?,
imdb_votes = ?, omdb_raw_json = ?, omdb_last_updated = ? WHERE id = ?`
statement (whether the statement's columns exist is gated where the
statement is issued, in `process_movie_batch`). -/
def update_movie_with_omdb (movie_id : Nat) (omdb_data : OmdbData)
    (now : String) (tbl : List MovieRow) : List MovieRow :=
  tbl.map fun r =>
    if r.id = movie_id then
      { r with
        imdb_id := omdb_data.imdbID <|> r.imdb_id
        imdb_rating := parse_imdb_rating omdb_data.imdbRating
        imdb_votes := parse_imdb_votes omdb_data.imdbVotes
        omdb_raw_json := some (json_dumps omdb_data)
        omdb_last_updated := some now }
    else r

/-- The two request shapes `step3_fetch_omdb.py` sends to OMDb. -/
inductive OmdbQuery where
  | byId (imdb_id : String)
  | byTitle (title : String) (year : Option String)
deriving DecidableEq, Repr

/-- An HTTP-level OMDb response: status code plus decoded body. -/
structure OmdbHttp where
  status : Nat
  body : OmdbData
deriving DecidableEq, Repr

/-- A `requests.Session` toward OMDb, as an oracle: each request either
raises a transport exception (`Except.error`) or yields an HTTP response. -/
def OmdbSession : Type := OmdbQuery → Except Unit OmdbHttp

/-- `fetch_from_omdb_by_imdb_id`: skip on falsy id, propagate transport
errors, report non-200 statuses, and accept only `Response == "True"`. -/
def fetch_from_omdb_by_imdb_id (session : OmdbSession) (imdb_id : Option String) :
    Except Unit (Option OmdbData × String) :=
  if ¬ truthyStr imdb_id then .ok (none, "no_imdb_id")
  else
    match imdb_id with
    | none => .ok (none, "no_imdb_id")
    | some i =>
      match session (.byId i) with
      | .error e => .error e
      | .ok resp =>
        let st := resp.status
        if st ≠ 200 then .ok (none, s!"http_error_{st}")
        else if resp.body.Response = some "True" then .ok (some resp.body, "by_imdb_id")
        else .ok (none, resp.body.Error.getD "omdb_error_imdb_id")

/-- `fetch_from_omdb_by_title_year`: same shape as the id lookup; the year
parameter is attached only when truthy (`if year:`). -/
def fetch_from_omdb_by_title_year (session : OmdbSession)
    (title year : Option String) : Except Unit (Option OmdbData × String) :=
  if ¬ truthyStr title then .ok (none, "no_title")
  else
    match title with
    | none => .ok (none, "no_title")
    | some t =>
      match session (.byTitle t (if truthyStr year then year else none)) with
      | .error e => .error e
      | .ok resp =>
        let st := resp.status
        if st ≠ 200 then .ok (none, s!"http_error_{st}")
        else if resp.body.Response = some "True" then .ok (some resp.body, "by_title_year")
        else .ok (none, resp.body.Error.getD "omdb_error_title_year")

/-- `fetch_omdb_data`: id lookup first, title+year fallback, both failure
reasons concatenated when neither path yields data. -/
def fetch_omdb_data (session : OmdbSession) (apiKey : Option String)
    (imdb_id title year : Option String) : Except Unit (Option OmdbData × String) :=
  if ¬ truthyStr apiKey then .ok (none, "API_KEY_MISSING")
  else
    match fetch_from_omdb_by_imdb_id session imdb_id with
    | .error e => .error e
    | .ok (some data, reason) => .ok (some data, reason)
    | .ok (none, r1) =>
      match fetch_from_omdb_by_title_year session title year with
      | .error e => .error e
      | .ok (some d2, r2) => .ok (some d2, r2)
      | .ok (none, r2) => .ok (none, s!"failed({r1} -> {r2})")

/-- Columns the `UPDATE` in `update_movie_with_omdb` writes; issuing the
statement against a table missing one of them raises
`sqlite3.OperationalError`. -/
def update_cols : List String :=
  ["imdb_id", "imdb_rating", "imdb_votes", "omdb_raw_json", "omdb_last_updated"]

/-- Columns referenced by the Phase-1 `SELECT ... WHERE omdb_raw_json IS
NULL` of `update_omdb_ratings`. -/
def missing_select_cols : List String :=
  ["id", "title", "year", "imdb_id", "omdb_raw_json"]

/-- Columns referenced by the Phase-2 `SELECT ... WHERE omdb_raw_json IS NOT
NULL ORDER BY omdb_last_updated`. -/
def refresh_select_cols : List String :=
  ["id", "title", "year", "imdb_id", "omdb_raw_json", "omdb_last_updated"]

/-- Whether every listed column exists in the table's schema. -/
def colsPresent (cols schema : List String) : Bool :=
  cols.all (fun c => schema.contains c)

/-- `process_movie_batch`: walks the batch keeping the running call count
`acc` (`processed_in_batch`); stops early when `total_processed + acc`
reaches `budget_limit`; a transport exception from `fetch_omdb_data` is
caught and breaks the batch (`.ok` with the units consumed so far); a
successful lookup runs the `UPDATE`, whose missing-column
`OperationalError` is NOT caught here and escapes the batch (`.error`,
carrying the table state at the raise). -/
def process_movie_batch (schema : List String) (session : OmdbSession)
    (apiKey : Option String) (now : String) (total_processed budget_limit : Nat) :
    List MovieRow → Nat → List MovieRow → Except (List MovieRow) (Nat × List MovieRow)
  | [], acc, db => .ok (acc, db)
  | row :: rest, acc, db =>
    if budget_limit ≤ total_processed + acc then .ok (acc, db)
    else
      match fetch_omdb_data session apiKey row.imdb_id row.title row.year with
      | .error _ => .ok (acc, db)
      | .ok (none, _) =>
        process_movie_batch schema session apiKey now total_processed budget_limit
          rest (acc + 1) db
      | .ok (some data, _) =>
        if colsPresent update_cols schema then
          process_movie_batch schema session apiKey now total_processed budget_limit
            rest (acc + 1) (update_movie_with_omdb row.id data now db)
        else .error db

/-- Stable insertion into a sorted list (model of SQLite `ORDER BY`). -/
def insertLe (le : MovieRow → MovieRow → Bool) (a : MovieRow) :
    List MovieRow → List MovieRow
  | [] => [a]
  | b :: t => if le a b then a :: b :: t else b :: insertLe le a t

/-- Stable insertion sort used to model `ORDER BY`. -/
def sortLe (le : MovieRow → MovieRow → Bool) : List MovieRow → List MovieRow
  | [] => []
  | a :: t => insertLe le a (sortLe le t)

/-- `ORDER BY id ASC`. -/
def idLe (a b : MovieRow) : Bool := a.id ≤ b.id

/-- `ORDER BY omdb_last_updated ASC` (SQL NULLs sort first ascending). -/
def lastUpdatedLe (a b : MovieRow) : Bool :=
  match a.omdb_last_updated, b.omdb_last_updated with
  | none, _ => true
  | some _, none => false
  | some x, some y => decide (x ≤ y)

/-- Phase-1 candidate query: rows with NULL `omdb_raw_json`, by ascending
id, limited. -/
def missingQuery (db : List MovieRow) (limit : Nat) : List MovieRow :=
  (sortLe idLe (db.filter (fun r => r.omdb_raw_json = none))).take limit

/-- Phase-2 candidate query: rows with non-NULL `omdb_raw_json`, stalest
(`omdb_last_updated` ascending) first, limited. -/
def refreshQuery (db : List MovieRow) (limit : Nat) : List MovieRow :=
  (sortLe lastUpdatedLe (db.filter (fun r => r.omdb_raw_json ≠ none))).take limit

/-- `setup_database_schema`: adds `omdb_last_updated` when absent. -/
def setup_database_schema (schema : List String) : List String :=
  if schema.contains "omdb_last_updated" then schema else schema ++ ["omdb_last_updated"]

/-- Observable outcome of one enrichment run.  `success` and `db` are the
run's actual return value and table effect; the remaining fields record the
run's internal accounting (candidate counts, per-phase call counts, and the
table state between the phases) so properties can speak about them. -/
structure EnrichResult where
  success : Bool
  phase1Selected : Nat
  phase1Calls : Nat
  dbAfterPhase1 : List MovieRow
  phase2Limit : Nat
  phase2Selected : Nat
  phase2Calls : Nat
  db : List MovieRow
deriving Repr

/-- `update_omdb_ratings` from `step3_fetch_omdb.py`, parameterized by the
configured budgets (`TOTAL_DAILY_BUDGET`, `BUDGET_FOR_MISSING_DATA`) and the
table's column list.  Missing API key returns failure immediately; a
missing column in the Phase-1 `SELECT` raises `OperationalError`, caught by
the run-level handler (failure, table untouched); `refresh_budget =
TOTAL_DAILY_BUDGET - total_calls_made` guards Phase 2 (`if refresh_budget >
0`, equivalent over `Nat` since the query only runs when positive). -/
def update_omdb_ratings (TOTAL_DAILY_BUDGET BUDGET_FOR_MISSING_DATA : Nat)
    (schema0 : List String) (session : OmdbSession) (apiKey : Option String)
    (now : String) (db : List MovieRow) : EnrichResult :=
  if ¬ truthyStr apiKey then ⟨false, 0, 0, db, 0, 0, 0, db⟩
  else
    if ¬ colsPresent missing_select_cols (setup_database_schema schema0) then
      ⟨false, 0, 0, db, 0, 0, 0, db⟩
    else
      match process_movie_batch (setup_database_schema schema0) session apiKey now 0
          BUDGET_FOR_MISSING_DATA (missingQuery db BUDGET_FOR_MISSING_DATA) 0 db with
      | .error db1 =>
        ⟨false, (missingQuery db BUDGET_FOR_MISSING_DATA).length, 0, db1, 0, 0, 0, db1⟩
      | .ok (calls1, db1) =>
        if 0 < TOTAL_DAILY_BUDGET - calls1 then
          if ¬ colsPresent refresh_select_cols (setup_database_schema schema0) then
            ⟨false, (missingQuery db BUDGET_FOR_MISSING_DATA).length, calls1, db1,
             TOTAL_DAILY_BUDGET - calls1, 0, 0, db1⟩
          else
            match process_movie_batch (setup_database_schema schema0) session apiKey now
                calls1 TOTAL_DAILY_BUDGET
                (refreshQuery db1 (TOTAL_DAILY_BUDGET - calls1)) 0 db1 with
            | .error db2 =>
              ⟨false, (missingQuery db BUDGET_FOR_MISSING_DATA).length, calls1, db1,
               TOTAL_DAILY_BUDGET - calls1,
               (refreshQuery db1 (TOTAL_DAILY_BUDGET - calls1)).length, 0, db2⟩
            | .ok (calls2, db2) =>
              ⟨true, (missingQuery db BUDGET_FOR_MISSING_DATA).length, calls1, db1,
               TOTAL_DAILY_BUDGET - calls1,
               (refreshQuery db1 (TOTAL_DAILY_BUDGET - calls1)).length, calls2, db2⟩
        else
          ⟨true, (missingQuery db BUDGET_FOR_MISSING_DATA).length, calls1, db1, 0, 0, 0, db1⟩

/-! ## Availability snapshots (`step2_update_providers.py`) -/

/-- The fixed country every availability call is scoped to. -/
def COUNTRY : String := "US"

/-- One provider entry as returned by `fetch_watch_providers`. -/
structure Provider where
  provider_id : Nat
  provider_name : String
  display_priority : Option Nat
  monetization_type : String
deriving DecidableEq, Repr

/-- One row of the `movie_availability` table (its own surrogate `id`
column is never read by the code and is omitted). -/
structure AvailRow where
  movie_id : Nat
  country_code : String
  provider_id : Nat
  provider_name : String
  display_priority : Option Nat
  monetization_type : String
  last_checked_at : String
deriving DecidableEq, Repr

/-- One raw provider object inside a monetization bucket of the TMDb
watch-providers response. -/
structure RawProvider where
  provider_id : Nat
  provider_name : String
  display_priority : Option Nat
deriving DecidableEq, Repr

/-- The country-level part of the watch-providers response: one optional
bucket per monetization type (`none` models a missing key). -/
structure CountryInfo where
  flatrate : Option (List RawProvider)
  ads : Option (List RawProvider)
  free : Option (List RawProvider)
  rent : Option (List RawProvider)
  buy : Option (List RawProvider)
deriving DecidableEq, Repr

/-- `data.get("results", {})` of the watch-providers response: a mapping
from country code to `CountryInfo`. -/
structure WatchData where
  results : List (String × CountryInfo)
deriving DecidableEq, Repr

/-- Python `dict.get`: first binding for the key, if any. -/
def dictGet (k : String) (d : List (String × CountryInfo)) : Option CountryInfo :=
  (d.find? (fun p => p.1 = k)).map (fun p => p.2)

/-- Flattening of one monetization bucket (`country_info[monetization_type]`)
into provider entries. -/
def bucketProviders (m : String) (bucket : Option (List RawProvider)) :
    List Provider :=
  (bucket.getD []).map fun p =>
    ⟨p.provider_id, p.provider_name, p.display_priority, m⟩

/-- `fetch_watch_providers`: the HTTP outcome for one movie is given by the
oracle value `resp`; on success the US country entry's buckets are
flattened in the fixed order flatrate, ads, free, rent, buy. -/
def fetch_watch_providers (resp : Except Unit WatchData) :
    Except Unit (List Provider) :=
  match resp with
  | .error e => .error e
  | .ok data =>
    let country_info := (dictGet COUNTRY data.results).getD ⟨none, none, none, none, none⟩
    .ok (bucketProviders "flatrate" country_info.flatrate ++
         bucketProviders "ads" country_info.ads ++
         bucketProviders "free" country_info.free ++
         bucketProviders "rent" country_info.rent ++
         bucketProviders "buy" country_info.buy)

/-- The availability row inserted by `store_providers` for one provider. -/
def providerRow (movie_id : Nat) (now : String) (p : Provider) : AvailRow :=
  ⟨movie_id, COUNTRY, p.provider_id, p.provider_name, p.display_priority,
   p.monetization_type, now⟩

/-- `store_providers`: `DELETE FROM movie_availability WHERE movie_id = ?`
followed by one `INSERT` per provider, committed together. -/
def store_providers (movie_id : Nat) (providers : List Provider)
    (now : String) (tbl : List AvailRow) : List AvailRow :=
  tbl.filter (fun r => r.movie_id ≠ movie_id) ++ providers.map (providerRow movie_id now)

/-- The per-movie loop of `update_providers_data` over the rows of
`SELECT id, tmdb_id FROM movie`: falsy `tmdb_id` (NULL or 0) rows are
skipped; a raised fetch is caught by the run-level handler, which returns
failure with the availability table as already committed. -/
def update_providers_go (o : Nat → Except Unit WatchData) (now : String) :
    List MovieRow → List AvailRow → Bool × List AvailRow
  | [], tbl => (true, tbl)
  | m :: rest, tbl =>
    match m.tmdb_id with
    | none => update_providers_go o now rest tbl
    | some t =>
      if t = 0 then update_providers_go o now rest tbl
      else
        match fetch_watch_providers (o t) with
        | .error _ => (false, tbl)
        | .ok providers =>
          update_providers_go o now rest (store_providers m.id providers now tbl)

/-- `update_providers_data`: ensures the table exists (no row effect), then
runs the per-movie loop over the full movie scan. -/
def update_providers_data (o : Nat → Except Unit WatchData)
    (movies : List MovieRow) (avail : List AvailRow) (now : String) :
    Bool × List AvailRow :=
  update_providers_go o now movies avail

/-- The availability rows currently stored for one entity. -/
def rowsFor (movie_id : Nat) (tbl : List AvailRow) : List AvailRow :=
  tbl.filter (fun r => r.movie_id = movie_id)

/-! ## Catalog discovery (`step1_build_catalog.py`) -/

/-- Outcome of one `requests.get` against TMDb: decoded JSON, an HTTP error
status (`raise_for_status`), or a connection/timeout error
(`RequestException`). -/
inductive ApiResp (α : Type) where
  | ok (data : α)
  | http (status : Nat)
  | netErr
deriving DecidableEq, Repr

/-- A Python exception escaping a fetch helper. -/
inductive PyErr where
  | httpError (status : Nat)
  | requestError
  | attributeError
deriving DecidableEq, Repr

/-- Observable side effects of discovery: issued page requests, issued
detail requests, and sleeps (duration in hundredths of a second). -/
inductive Event where
  | pageRequest (page : Nat)
  | detailRequest (tmdb_id : Nat)
  | sleep (centis : Nat)
deriving DecidableEq, Repr

/-- `RETRY_DELAY = 5` seconds, in hundredths. -/
def RETRY_DELAY : Nat := 500

/-- One lightweight entry of a discovery page's `results` list. -/
structure PageItem where
  id : Nat
  release_date : Option String
deriving DecidableEq, Repr

/-- One decoded discovery page.  `total_pages` is
`data.get("total_pages", 500)` (`none` models the absent key). -/
structure PageData where
  results : List PageItem
  total_pages : Option Nat
deriving DecidableEq, Repr

/-- The retry loop of `fetch_discover_page` (`for attempt in range(3)`),
driven by an oracle from attempt number to response; `attempts` is the list
of remaining attempt indices.  A 429 sleeps 60 s and retries the same page;
another HTTP error is raised; a `RequestException` retries after
`RETRY_DELAY` except on the final attempt, where it is raised; exhausting
the loop falls off the function body, returning Python `None`. -/
def fetch_discover_page_go (o : Nat → ApiResp PageData) (page : Nat) :
    List Nat → List Event × Except PyErr (Option PageData)
  | [] => ([], .ok none)
  | a :: rest =>
    match o a with
    | .ok d => ([.pageRequest page], .ok (some d))
    | .http s =>
      if s = 429 then
        let next := fetch_discover_page_go o page rest
        (.pageRequest page :: .sleep 6000 :: next.1, next.2)
      else ([.pageRequest page], .error (.httpError s))
    | .netErr =>
      if rest = [] then ([.pageRequest page], .error .requestError)
      else
        let next := fetch_discover_page_go o page rest
        (.pageRequest page :: .sleep RETRY_DELAY :: next.1, next.2)

/-- `fetch_discover_page` with its three attempts. -/
def fetch_discover_page (o : Nat → ApiResp PageData) (page : Nat) :
    List Event × Except PyErr (Option PageData) :=
  fetch_discover_page_go o page [0, 1, 2]

/-- The retry loop of `fetch_movie_details`: like the page fetch but a 404
returns `None` immediately (graceful skip), and exhausting the three
attempts hits the explicit `return None`. -/
def fetch_movie_details_go (o : Nat → ApiResp Details) (tmdb_id : Nat) :
    List Nat → List Event × Except PyErr (Option Details)
  | [] => ([], .ok none)
  | a :: rest =>
    match o a with
    | .ok d => ([.detailRequest tmdb_id], .ok (some d))
    | .http s =>
      if s = 429 then
        let next := fetch_movie_details_go o tmdb_id rest
        (.detailRequest tmdb_id :: .sleep 6000 :: next.1, next.2)
      else if s = 404 then ([.detailRequest tmdb_id], .ok none)
      else ([.detailRequest tmdb_id], .error (.httpError s))
    | .netErr =>
      if rest = [] then ([.detailRequest tmdb_id], .error .requestError)
      else
        let next := fetch_movie_details_go o tmdb_id rest
        (.detailRequest tmdb_id :: .sleep RETRY_DELAY :: next.1, next.2)

/-- `fetch_movie_details` with its three attempts. -/
def fetch_movie_details (o : Nat → ApiResp Details) (tmdb_id : Nat) :
    List Event × Except PyErr (Option Details) :=
  fetch_movie_details_go o tmdb_id [0, 1, 2]

/-- Result of one `fetch_catalog_by_date_range` run: the event log, the
movie table (persisted effects survive an abort), and the exception that
escaped the range, if any. -/
structure CatalogResult where
  log : List Event
  db : List MovieRow
  err : Option PyErr
deriving Repr

/-- The inner `for item in data["results"]` loop: re-checks the per-range
cap before each entity, skips entries lacking a release date, fetches
details (an exception escaping the detail fetch propagates out of the whole
range), and on a non-`None` detail record upserts it, counts it, and sleeps
0.25 s. -/
def catalog_items_go (detO : Nat → Nat → ApiResp Details)
    (max_movies : Nat) (createdAt : String) :
    List PageItem → Nat → List MovieRow → List Event →
    Nat × List MovieRow × List Event × Option PyErr
  | [], processed, db, log => (processed, db, log, none)
  | item :: rest, processed, db, log =>
    if max_movies ≤ processed then (processed, db, log, none)
    else if ¬ truthyStr item.release_date then
      catalog_items_go detO max_movies createdAt rest processed db log
    else
      let fd := fetch_movie_details (detO item.id) item.id
      match fd.2 with
      | .error e => (processed, db, log ++ fd.1, some e)
      | .ok none => catalog_items_go detO max_movies createdAt rest processed db (log ++ fd.1)
      | .ok (some d) =>
        catalog_items_go detO max_movies createdAt rest (processed + 1)
          (upsert_movie (some d) createdAt db) (log ++ fd.1 ++ [.sleep 25])

/-- The page loop of `fetch_catalog_by_date_range`.  `pages` is the
iteration sequence of `for page in range(1, total_pages + 1)`: Python
evaluates the bound once at loop entry with `total_pages = 500`, so the
later reassignment `total_pages = min(data.get("total_pages", 500), 500)`
on page 1 feeds only the progress print and never shrinks this sequence.
An `HTTPError` 429 escaping the page fetch would sleep 10 s and `continue`
(advancing to the next page); any other escaping exception aborts the
range.  A `None` page (all three attempts rate-limited) raises
`AttributeError` at `data.get("results")`.  An empty result list breaks the
range; otherwise the items are processed and the loop sleeps 0.5 s. -/
def catalog_pages_go (pageO : Nat → Nat → ApiResp PageData)
    (detO : Nat → Nat → ApiResp Details) (max_movies : Nat) (createdAt : String) :
    List Nat → Nat → List MovieRow → List Event → CatalogResult
  | [], _, db, log => ⟨log, db, none⟩
  | page :: rest, processed, db, log =>
    if max_movies ≤ processed then ⟨log, db, none⟩
    else
      let fp := fetch_discover_page (pageO page) page
      match fp.2 with
      | .error (.httpError 429) =>
        catalog_pages_go pageO detO max_movies createdAt rest processed db
          (log ++ fp.1 ++ [.sleep 1000])
      | .error e => ⟨log ++ fp.1, db, some e⟩
      | .ok none => ⟨log ++ fp.1, db, some .attributeError⟩
      | .ok (some data) =>
        if data.results = [] then ⟨log ++ fp.1, db, none⟩
        else
          match catalog_items_go detO max_movies createdAt data.results processed db
              (log ++ fp.1) with
          | (_, db2, log2, some e) => ⟨log2, db2, some e⟩
          | (processed2, db2, log2, none) =>
            catalog_pages_go pageO detO max_movies createdAt rest processed2 db2
              (log2 ++ [.sleep 50])

/-- `fetch_catalog_by_date_range` for one date range: the date bounds only
parameterize the page oracle, so they are left implicit in it. -/
def fetch_catalog_by_date_range (pageO : Nat → Nat → ApiResp PageData)
    (detO : Nat → Nat → ApiResp Details) (max_movies_per_range : Nat)
    (createdAt : String) (db : List MovieRow) : CatalogResult :=
  catalog_pages_go pageO detO max_movies_per_range createdAt
    (List.range' 1 500) 0 db []

/-- The page numbers requested in an event log. -/
def pageRequests (log : List Event) : List Nat :=
  log.filterMap fun e =>
    match e with
    | .pageRequest p => some p
    | _ => none

/-- The detail (entity) ids requested in an event log. -/
def detailRequests (log : List Event) : List Nat :=
  log.filterMap fun e =>
    match e with
    | .detailRequest t => some t
    | _ => none

/-! ## General list helpers -/

/-- Filtering with `q` after keeping only elements refuting `q` yields
nothing. -/
theorem filter_filter_nil {α : Type} (p q : α → Bool)
    (h : ∀ a, q a = true → p a = false) :
    ∀ l : List α, (l.filter p).filter q = [] := by
  intro l
  induction l with
  | nil => rfl
  | cons a t ih =>
    by_cases hp : p a = true
    · rw [List.filter_cons_of_pos hp, List.filter_cons]
      have hq : q a = false := by
        cases hqa : q a
        · rfl
        · exact absurd (h a hqa) (by simp [hp])
      simp [hq, ih]
    · rw [List.filter_cons_of_neg (by simpa using hp)]
      exact ih

/-- A filter by `q` is unaffected by a previous filter with a weaker
predicate `p`. -/
theorem filter_filter_of_imp {α : Type} (p q : α → Bool)
    (h : ∀ a, q a = true → p a = true) :
    ∀ l : List α, (l.filter p).filter q = l.filter q := by
  intro l
  induction l with
  | nil => rfl
  | cons a t ih =>
    by_cases hp : p a = true
    · rw [List.filter_cons_of_pos hp, List.filter_cons, List.filter_cons, ih]
    · have hq : q a = false := by
        cases hqa : q a
        · rfl
        · exact absurd (h a hqa) (by simp [hp])
      rw [List.filter_cons_of_neg (by simpa using hp),
        List.filter_cons_of_neg (by simp [hq]), ih]

/-- Every row's id is bounded by `maxId`. -/
theorem id_le_maxId {r : MovieRow} : ∀ {tbl : List MovieRow}, r ∈ tbl → r.id ≤ maxId tbl := by
  intro tbl
  induction tbl with
  | nil => intro h; cases h
  | cons a t ih =>
    intro h
    rcases List.mem_cons.mp h with rfl | h
    · exact Nat.le_max_left _ _
    · exact Nat.le_trans (ih h) (Nat.le_max_right _ _)

/-- Rows of the second upsert's input sharing the replaced `tmdb_id` are
all removed before the new row is appended. -/
theorem filter_upsert_self (d : Details) (createdAt : String) (tbl : List MovieRow) :
    (upsert_movie (some d) createdAt tbl).filter (fun r => r.tmdb_id = some d.id) =
      [movieRowOf d (maxId tbl + 1) createdAt] := by
  unfold upsert_movie
  have h1 := filter_filter_nil (fun r : MovieRow => r.tmdb_id ≠ some d.id)
    (fun r : MovieRow => r.tmdb_id = some d.id) (by intro a ha; simpa using ha) tbl
  rw [List.filter_append, h1]
  simp [movieRowOf]

/-! ## C6: upsert by external primary id overwrites, never duplicates -/

/-- C6: after two upserts carrying the same TMDb id, the store holds exactly
one row for that id, and that row is the one built from the second payload
alone (every enrichment column NULL, fresh rowid, fresh `created_at`). -/
theorem upsert_same_id_overwrites (d1 d2 : Details) (_h : d1.id = d2.id)
    (t1 t2 : String) (tbl : List MovieRow) :
    (upsert_movie (some d2) t2 (upsert_movie (some d1) t1 tbl)).filter
        (fun r => r.tmdb_id = some d2.id) =
      [movieRowOf d2 (maxId (upsert_movie (some d1) t1 tbl) + 1) t2] :=
  filter_upsert_self d2 t2 _

/-- Concrete instance of C6: double upsert of TMDb id 42 into an empty
store leaves exactly the second payload's row. -/
theorem upsert_same_id_overwrites_witness :
    (upsert_movie (some ⟨42, none, some "tt2", some "B", none, none, none,
          none, none, none, none, none⟩) "t2"
        (upsert_movie (some ⟨42, some "tt1", none, some "A", none,
          some "2001-05-05", none, none, none, none, none, none⟩) "t1" [])).filter
        (fun r => r.tmdb_id = some 42) =
      [movieRowOf ⟨42, none, some "tt2", some "B", none, none, none, none,
          none, none, none, none⟩ 2 "t2"] :=
  upsert_same_id_overwrites
    ⟨42, some "tt1", none, some "A", none, some "2001-05-05", none, none,
      none, none, none, none⟩
    ⟨42, none, some "tt2", some "B", none, none, none, none, none, none,
      none, none⟩ rfl "t1" "t2" []

/-! ## C9: re-discovery resets enrichment and orphans availability rows -/

/-- C9: re-upserting an already-enriched entity (same `tmdb_id`) writes a
replacement row whose enrichment columns are all NULL and whose rowid is
fresh (never previously in the table), and afterwards no row of the movie
table carries the old internal id — so availability snapshots referencing
it dangle. -/
theorem rediscovery_resets_and_orphans (d : Details) (createdAt : String)
    (tbl : List MovieRow) (avail : List AvailRow) (r : MovieRow)
    (hnd : (tbl.map (·.id)).Nodup) (hr : r ∈ tbl) (ht : r.tmdb_id = some d.id)
    (_henr : r.omdb_raw_json ≠ none ∧ r.imdb_rating ≠ none ∧
      r.imdb_votes ≠ none ∧ r.omdb_last_updated ≠ none) :
    ∃ nr, (upsert_movie (some d) createdAt tbl).filter
        (fun x => x.tmdb_id = some d.id) = [nr] ∧
      nr.imdb_rating = none ∧ nr.imdb_votes = none ∧
      nr.omdb_raw_json = none ∧ nr.omdb_last_updated = none ∧
      nr.id ∉ tbl.map (·.id) ∧
      (∀ x ∈ upsert_movie (some d) createdAt tbl, x.id ≠ r.id) ∧
      (∀ a ∈ avail, a.movie_id = r.id →
        ∀ x ∈ upsert_movie (some d) createdAt tbl, x.id ≠ a.movie_id) := by
  refine ⟨movieRowOf d (maxId tbl + 1) createdAt,
    filter_upsert_self d createdAt tbl, rfl, rfl, rfl, rfl, ?_, ?_, ?_⟩
  · intro hmem
    rcases List.mem_map.mp hmem with ⟨x, hx, hid⟩
    have : x.id ≤ maxId tbl := id_le_maxId hx
    simp only [movieRowOf] at hid
    omega
  · intro x hx
    unfold upsert_movie at hx
    rcases List.mem_append.mp hx with hx | hx
    · have hxt := List.of_mem_filter hx
      have hxm : x ∈ tbl := List.mem_of_mem_filter hx
      intro heq
      have : x = r := List.inj_on_of_nodup_map hnd hxm hr heq
      subst this
      simp [ht] at hxt
    · have : x = movieRowOf d (maxId tbl + 1) createdAt := by simpa using hx
      subst this
      have : r.id ≤ maxId tbl := id_le_maxId hr
      simp only [movieRowOf]
      omega
  · intro a _ha hmid x hx
    rw [hmid]
    revert x hx
    intro x hx
    -- same as the previous bullet, now phrased for the snapshot's reference
    unfold upsert_movie at hx
    rcases List.mem_append.mp hx with hx | hx
    · have hxt := List.of_mem_filter hx
      have hxm : x ∈ tbl := List.mem_of_mem_filter hx
      intro heq
      have : x = r := List.inj_on_of_nodup_map hnd hxm hr heq
      subst this
      simp [ht] at hxt
    · have : x = movieRowOf d (maxId tbl + 1) createdAt := by simpa using hx
      subst this
      have : r.id ≤ maxId tbl := id_le_maxId hr
      simp only [movieRowOf]
      omega

/-- An already-enriched stored row (for the C9 instance). -/
def c9_row : MovieRow :=
  { id := 1, tmdb_id := some 42, imdb_id := some "tt9", title := some "A",
    original_title := none, year := some "2001", overview := none,
    runtime := none, popularity := none, tmdb_vote_avg := none,
    tmdb_vote_count := none, poster_path := none, created_at := some "t0",
    omdb_last_updated := some "t1", imdb_rating := some "7.4",
    imdb_votes := some 100, omdb_raw_json := some "raw" }

/-- The re-discovered detail payload for the same TMDb id 42. -/
def c9_details : Details :=
  ⟨42, some "tt9", none, some "A", none, some "2001-05-05", none, none,
    none, none, none, none⟩

/-- A stored availability snapshot referencing internal id 1. -/
def c9_avail : AvailRow := ⟨1, "US", 8, "Netflix", some 1, "flatrate", "t1"⟩

/-- Concrete instance of C9: a one-row enriched store re-discovered gets a
fresh rowid and NULL enrichment; the availability row for the old id 1 no
longer references any movie row. -/
theorem rediscovery_resets_and_orphans_witness :
    ∃ nr, (upsert_movie (some c9_details) "t9" [c9_row]).filter
        (fun x => x.tmdb_id = some c9_details.id) = [nr] ∧
      nr.imdb_rating = none ∧ nr.imdb_votes = none ∧
      nr.omdb_raw_json = none ∧ nr.omdb_last_updated = none ∧
      nr.id ∉ [c9_row].map (·.id) ∧
      (∀ x ∈ upsert_movie (some c9_details) "t9" [c9_row], x.id ≠ c9_row.id) ∧
      (∀ a ∈ [c9_avail], a.movie_id = c9_row.id →
        ∀ x ∈ upsert_movie (some c9_details) "t9" [c9_row], x.id ≠ a.movie_id) :=
  rediscovery_resets_and_orphans c9_details "t9" [c9_row] [c9_avail] c9_row
    (by decide) (by simp) (by decide) (by decide)

/-! ## C8: the `omdb_last_updated`/`omdb_raw_json` null-together invariant -/

/-- The writes the pipeline performs on the `movie` table: discovery upsert
and OMDb enrichment (`store_providers` touches only `movie_availability`). -/
inductive StoreOp where
  | upsert (details : Option Details) (createdAt : String)
  | enrich (movie_id : Nat) (data : OmdbData) (now : String)

/-- Effect of one write on the `movie` table. -/
def applyStoreOp : StoreOp → List MovieRow → List MovieRow
  | .upsert d t, tbl => upsert_movie d t tbl
  | .enrich m d now, tbl => update_movie_with_omdb m d now tbl

/-- The invariant: per row, the enrichment timestamp is NULL exactly when
the raw payload is NULL. -/
def EnrichTimestampInv (tbl : List MovieRow) : Prop :=
  ∀ r ∈ tbl, (r.omdb_raw_json = none ↔ r.omdb_last_updated = none)

instance (tbl : List MovieRow) : Decidable (EnrichTimestampInv tbl) := by
  unfold EnrichTimestampInv
  infer_instance

/-- C8: every movie-table write preserves the null-together invariant, and
the enrichment update in particular sets the raw payload and the timestamp
to non-NULL values in the same statement. -/
theorem enrich_null_together_invariant :
    (∀ (op : StoreOp) (tbl : List MovieRow), EnrichTimestampInv tbl →
      EnrichTimestampInv (applyStoreOp op tbl)) ∧
    (∀ (movie_id : Nat) (d : OmdbData) (now : String) (tbl : List MovieRow),
      ∀ x ∈ update_movie_with_omdb movie_id d now tbl, x.id = movie_id →
        x.omdb_raw_json = some (json_dumps d) ∧ x.omdb_last_updated = some now) := by
  constructor
  · intro op tbl hinv
    cases op with
    | upsert d t =>
      cases d with
      | none => exact hinv
      | some dd =>
        intro r hr
        unfold applyStoreOp upsert_movie at hr
        rcases List.mem_append.mp hr with hr | hr
        · exact hinv r (List.mem_of_mem_filter hr)
        · have : r = movieRowOf dd (maxId tbl + 1) t := by simpa using hr
          subst this
          simp [movieRowOf]
    | enrich m d now =>
      intro r hr
      unfold applyStoreOp update_movie_with_omdb at hr
      rcases List.mem_map.mp hr with ⟨y, hy, hyr⟩
      by_cases hid : y.id = m
      · simp only [hid, if_pos rfl] at hyr
        subst hyr
        simp
      · simp only [if_neg hid] at hyr
        subst hyr
        exact hinv y hy
  · intro movie_id d now tbl x hx hid
    unfold update_movie_with_omdb at hx
    rcases List.mem_map.mp hx with ⟨y, hy, hyx⟩
    by_cases h : y.id = movie_id
    · simp only [if_pos h] at hyx
      subst hyx
      exact ⟨rfl, rfl⟩
    · simp only [if_neg h] at hyx
      subst hyx
      exact absurd hid h

/-- Concrete instance of C8: enriching a catalog-fresh row keeps the
invariant (both fields flip to non-NULL together). -/
theorem enrich_null_together_invariant_witness :
    EnrichTimestampInv (applyStoreOp
      (.enrich 1 ⟨some "True", none, some "tt1", some "7.4", some "1,234", []⟩ "now")
      [movieRowOf ⟨7, none, none, some "T", none, none, none, none, none,
        none, none, none⟩ 1 "t0"]) :=
  enrich_null_together_invariant.1
    (.enrich 1 ⟨some "True", none, some "tt1", some "7.4", some "1,234", []⟩ "now")
    [movieRowOf ⟨7, none, none, some "T", none, none, none, none, none,
      none, none, none⟩ 1 "t0"] (by decide)

/-! ## C4: rate-limited calls retry the same logical request -/

/-- Every page request issued by the discover-page retry loop carries the
same page number. -/
theorem discover_go_pages (o : Nat → ApiResp PageData) (p : Nat) :
    ∀ attempts, ∀ q ∈ pageRequests (fetch_discover_page_go o p attempts).1, q = p := by
  intro attempts
  induction attempts with
  | nil => simp [fetch_discover_page_go, pageRequests]
  | cons a rest ih =>
    cases h : o a with
    | ok d => simp [fetch_discover_page_go, h, pageRequests, List.filterMap_cons]
    | http s =>
      by_cases hs : s = 429
      · subst hs
        simp only [fetch_discover_page_go, h, if_pos rfl]
        intro q hq
        simp only [pageRequests, List.filterMap_cons] at hq
        rcases List.mem_cons.mp hq with rfl | hq
        · rfl
        · exact ih q hq
      · simp [fetch_discover_page_go, h, hs, pageRequests, List.filterMap_cons]
    | netErr =>
      by_cases hr : rest = []
      · subst hr
        simp [fetch_discover_page_go, h, pageRequests, List.filterMap_cons]
      · simp only [fetch_discover_page_go, h, if_neg hr]
        intro q hq
        simp only [pageRequests, List.filterMap_cons] at hq
        rcases List.mem_cons.mp hq with rfl | hq
        · rfl
        · exact ih q hq

/-- The discover-page retry loop issues at most one request per attempt. -/
theorem discover_go_len_le (o : Nat → ApiResp PageData) (p : Nat) :
    ∀ attempts, (pageRequests (fetch_discover_page_go o p attempts).1).length ≤
      attempts.length := by
  intro attempts
  induction attempts with
  | nil => simp [fetch_discover_page_go, pageRequests]
  | cons a rest ih =>
    cases h : o a with
    | ok d => simp [fetch_discover_page_go, h, pageRequests, List.filterMap_cons]
    | http s =>
      by_cases hs : s = 429
      · subst hs
        simp only [fetch_discover_page_go, h, if_pos rfl, pageRequests,
          List.filterMap_cons, List.length_cons]
        exact Nat.succ_le_succ ih
      · simp [fetch_discover_page_go, h, hs, pageRequests, List.filterMap_cons]
    | netErr =>
      by_cases hr : rest = []
      · subst hr
        simp [fetch_discover_page_go, h, pageRequests, List.filterMap_cons]
      · simp only [fetch_discover_page_go, h, if_neg hr, pageRequests,
          List.filterMap_cons, List.length_cons]
        exact Nat.succ_le_succ ih

/-- With at least one attempt remaining, the discover-page loop issues at
least one request. -/
theorem discover_go_len_pos (o : Nat → ApiResp PageData) (p : Nat) (a : Nat)
    (rest : List Nat) :
    1 ≤ (pageRequests (fetch_discover_page_go o p (a :: rest)).1).length := by
  cases h : o a with
  | ok d => simp [fetch_discover_page_go, h, pageRequests, List.filterMap_cons]
  | http s =>
    by_cases hs : s = 429
    · subst hs
      simp [fetch_discover_page_go, h, pageRequests, List.filterMap_cons]
    · simp [fetch_discover_page_go, h, hs, pageRequests, List.filterMap_cons]
  | netErr =>
    by_cases hr : rest = []
    · subst hr
      simp [fetch_discover_page_go, h, pageRequests, List.filterMap_cons]
    · simp [fetch_discover_page_go, h, hr, pageRequests, List.filterMap_cons]

/-- With exactly one attempt remaining, the discover-page loop issues
exactly one request. -/
theorem discover_go_len_single (o : Nat → ApiResp PageData) (p : Nat) (a : Nat) :
    (pageRequests (fetch_discover_page_go o p [a]).1).length = 1 := by
  cases h : o a with
  | ok d => simp [fetch_discover_page_go, h, pageRequests, List.filterMap_cons]
  | http s =>
    by_cases hs : s = 429
    · subst hs
      simp [fetch_discover_page_go, h, pageRequests, List.filterMap_cons]
    · simp [fetch_discover_page_go, h, hs, pageRequests, List.filterMap_cons]
  | netErr => simp [fetch_discover_page_go, h, pageRequests, List.filterMap_cons]

/-- Every detail request issued by the detail retry loop carries the same
entity id. -/
theorem details_go_ids (o : Nat → ApiResp Details) (t : Nat) :
    ∀ attempts, ∀ q ∈ detailRequests (fetch_movie_details_go o t attempts).1, q = t := by
  intro attempts
  induction attempts with
  | nil => simp [fetch_movie_details_go, detailRequests]
  | cons a rest ih =>
    cases h : o a with
    | ok d => simp [fetch_movie_details_go, h, detailRequests, List.filterMap_cons]
    | http s =>
      by_cases hs : s = 429
      · subst hs
        simp only [fetch_movie_details_go, h, if_pos rfl]
        intro q hq
        simp only [detailRequests, List.filterMap_cons] at hq
        rcases List.mem_cons.mp hq with rfl | hq
        · rfl
        · exact ih q hq
      · by_cases h4 : s = 404 <;>
          simp [fetch_movie_details_go, h, hs, h4, detailRequests, List.filterMap_cons]
    | netErr =>
      by_cases hr : rest = []
      · subst hr
        simp [fetch_movie_details_go, h, detailRequests, List.filterMap_cons]
      · simp only [fetch_movie_details_go, h, if_neg hr]
        intro q hq
        simp only [detailRequests, List.filterMap_cons] at hq
        rcases List.mem_cons.mp hq with rfl | hq
        · rfl
        · exact ih q hq

/-- The detail retry loop issues at most one request per attempt. -/
theorem details_go_len_le (o : Nat → ApiResp Details) (t : Nat) :
    ∀ attempts, (detailRequests (fetch_movie_details_go o t attempts).1).length ≤
      attempts.length := by
  intro attempts
  induction attempts with
  | nil => simp [fetch_movie_details_go, detailRequests]
  | cons a rest ih =>
    cases h : o a with
    | ok d => simp [fetch_movie_details_go, h, detailRequests, List.filterMap_cons]
    | http s =>
      by_cases hs : s = 429
      · subst hs
        simp only [fetch_movie_details_go, h, if_pos rfl, detailRequests,
          List.filterMap_cons, List.length_cons]
        exact Nat.succ_le_succ ih
      · by_cases h4 : s = 404 <;>
          simp [fetch_movie_details_go, h, hs, h4, detailRequests, List.filterMap_cons]
    | netErr =>
      by_cases hr : rest = []
      · subst hr
        simp [fetch_movie_details_go, h, detailRequests, List.filterMap_cons]
      · simp only [fetch_movie_details_go, h, if_neg hr, detailRequests,
          List.filterMap_cons, List.length_cons]
        exact Nat.succ_le_succ ih

/-- With at least one attempt remaining, the detail loop issues at least
one request. -/
theorem details_go_len_pos (o : Nat → ApiResp Details) (t : Nat) (a : Nat)
    (rest : List Nat) :
    1 ≤ (detailRequests (fetch_movie_details_go o t (a :: rest)).1).length := by
  cases h : o a with
  | ok d => simp [fetch_movie_details_go, h, detailRequests, List.filterMap_cons]
  | http s =>
    by_cases hs : s = 429
    · subst hs
      simp [fetch_movie_details_go, h, detailRequests, List.filterMap_cons]
    · by_cases h4 : s = 404 <;>
        simp [fetch_movie_details_go, h, hs, h4, detailRequests, List.filterMap_cons]
  | netErr =>
    by_cases hr : rest = []
    · subst hr
      simp [fetch_movie_details_go, h, detailRequests, List.filterMap_cons]
    · simp [fetch_movie_details_go, h, hr, detailRequests, List.filterMap_cons]

/-- With exactly one attempt remaining, the detail loop issues exactly one
request. -/
theorem details_go_len_single (o : Nat → ApiResp Details) (t : Nat) (a : Nat) :
    (detailRequests (fetch_movie_details_go o t [a]).1).length = 1 := by
  cases h : o a with
  | ok d => simp [fetch_movie_details_go, h, detailRequests, List.filterMap_cons]
  | http s =>
    by_cases hs : s = 429
    · subst hs
      simp [fetch_movie_details_go, h, detailRequests, List.filterMap_cons]
    · by_cases h4 : s = 404 <;>
        simp [fetch_movie_details_go, h, hs, h4, detailRequests, List.filterMap_cons]
  | netErr => simp [fetch_movie_details_go, h, detailRequests, List.filterMap_cons]

/-- One unfolding step of the discover-page loop under a 429 response. -/
theorem discover_go_step_429 (o : Nat → ApiResp PageData) (p a : Nat)
    (rest : List Nat) (h : o a = .http 429) :
    fetch_discover_page_go o p (a :: rest) =
      (Event.pageRequest p :: Event.sleep 6000 ::
        (fetch_discover_page_go o p rest).1,
       (fetch_discover_page_go o p rest).2) := by
  conv_lhs => rw [fetch_discover_page_go]
  rw [h]
  rfl

/-- One unfolding step of the detail loop under a 429 response. -/
theorem details_go_step_429 (o : Nat → ApiResp Details) (t a : Nat)
    (rest : List Nat) (h : o a = .http 429) :
    fetch_movie_details_go o t (a :: rest) =
      (Event.detailRequest t :: Event.sleep 6000 ::
        (fetch_movie_details_go o t rest).1,
       (fetch_movie_details_go o t rest).2) := by
  conv_lhs => rw [fetch_movie_details_go]
  rw [h]
  rfl

/-- C4: on a rate-limit response both discovery fetch helpers retry the
same logical request — every request of one `fetch_discover_page` call is
for the same page and every request of one `fetch_movie_details` call is
for the same entity id; at most three requests are issued; a 429 on the
first attempt forces a second request (no advancing/skipping), and 429s on
the first two attempts exhaust all three. -/
theorem rate_limit_retries_same_request :
    (∀ (o : Nat → ApiResp PageData) (p : Nat),
      (∀ q ∈ pageRequests (fetch_discover_page o p).1, q = p) ∧
      (pageRequests (fetch_discover_page o p).1).length ≤ 3 ∧
      (o 0 = .http 429 → 2 ≤ (pageRequests (fetch_discover_page o p).1).length) ∧
      (o 0 = .http 429 → o 1 = .http 429 →
        (pageRequests (fetch_discover_page o p).1).length = 3)) ∧
    (∀ (o : Nat → ApiResp Details) (t : Nat),
      (∀ q ∈ detailRequests (fetch_movie_details o t).1, q = t) ∧
      (detailRequests (fetch_movie_details o t).1).length ≤ 3 ∧
      (o 0 = .http 429 → 2 ≤ (detailRequests (fetch_movie_details o t).1).length) ∧
      (o 0 = .http 429 → o 1 = .http 429 →
        (detailRequests (fetch_movie_details o t).1).length = 3)) := by
  constructor
  · intro o p
    refine ⟨discover_go_pages o p [0, 1, 2], discover_go_len_le o p [0, 1, 2], ?_, ?_⟩
    · intro h0
      show 2 ≤ (pageRequests (fetch_discover_page_go o p [0, 1, 2]).1).length
      rw [discover_go_step_429 o p 0 [1, 2] h0]
      simp only [pageRequests, List.filterMap_cons, List.length_cons]
      have := discover_go_len_pos o p 1 [2]
      simp only [pageRequests] at this
      omega
    · intro h0 h1
      show (pageRequests (fetch_discover_page_go o p [0, 1, 2]).1).length = 3
      rw [discover_go_step_429 o p 0 [1, 2] h0, discover_go_step_429 o p 1 [2] h1]
      simp only [pageRequests, List.filterMap_cons, List.length_cons]
      have := discover_go_len_single o p 2
      simp only [pageRequests] at this
      omega
  · intro o t
    refine ⟨details_go_ids o t [0, 1, 2], details_go_len_le o t [0, 1, 2], ?_, ?_⟩
    · intro h0
      show 2 ≤ (detailRequests (fetch_movie_details_go o t [0, 1, 2]).1).length
      rw [details_go_step_429 o t 0 [1, 2] h0]
      simp only [detailRequests, List.filterMap_cons, List.length_cons]
      have := details_go_len_pos o t 1 [2]
      simp only [detailRequests] at this
      omega
    · intro h0 h1
      show (detailRequests (fetch_movie_details_go o t [0, 1, 2]).1).length = 3
      rw [details_go_step_429 o t 0 [1, 2] h0, details_go_step_429 o t 1 [2] h1]
      simp only [detailRequests, List.filterMap_cons, List.length_cons]
      have := details_go_len_single o t 2
      simp only [detailRequests] at this
      omega

/-- Concrete instance of C4: an always-rate-limited oracle makes both
helpers issue all three (identical) requests. -/
theorem rate_limit_retries_same_request_witness :
    (pageRequests (fetch_discover_page (fun _ => .http 429) 7).1).length = 3 ∧
    (detailRequests (fetch_movie_details (fun _ => .http 429) 9).1).length = 3 :=
  ⟨(rate_limit_retries_same_request.1 (fun _ => .http 429) 7).2.2.2 rfl rfl,
   (rate_limit_retries_same_request.2 (fun _ => .http 429) 9).2.2.2 rfl rfl⟩

/-! ## C5: what retry exhaustion of a detail fetch actually does -/

/-- Page oracle for the C5 run: page 1 lists entities 5 and 8 (both with
release dates) and reports one total page; later pages are empty. -/
def c5_pageO : Nat → Nat → ApiResp PageData := fun p _ =>
  if p = 1 then .ok ⟨[⟨5, some "2020-01-01"⟩, ⟨8, some "2020-01-02"⟩], some 1⟩
  else .ok ⟨[], some 1⟩

/-- Detail payload for entity 8. -/
def c5_d8 : Details :=
  ⟨8, none, none, some "B", none, some "2020-01-02", none, none, none, none,
    none, none⟩

/-- Detail oracle for the C5 run: entity 5 is rate-limited on every
attempt, entity 8 succeeds. -/
def c5_detO : Nat → Nat → ApiResp Details := fun t _ =>
  if t = 5 then .http 429 else .ok c5_d8

/-- Counterexample to C5: a detail fetch whose three attempts are all
rate-limited returns `None` — no exception propagates — and the caller
silently skips that entity and finishes the range without error,
persisting the following entity. -/
theorem detail_retry_exhaustion_not_fatal :
    (fetch_movie_details (fun _ => .http 429) 5).2 = .ok none ∧
    (fetch_catalog_by_date_range c5_pageO c5_detO 10 "t" []).err = none ∧
    ((fetch_catalog_by_date_range c5_pageO c5_detO 10 "t" []).db.map
      (fun r => r.tmdb_id)) = [some 8] :=
  ⟨rfl, rfl, rfl⟩

/-- One unfolding step of the detail loop under a non-final transport
error. -/
theorem details_go_step_netErr (o : Nat → ApiResp Details) (t a : Nat)
    (rest : List Nat) (h : o a = .netErr) (hr : rest ≠ []) :
    fetch_movie_details_go o t (a :: rest) =
      (Event.detailRequest t :: Event.sleep RETRY_DELAY ::
        (fetch_movie_details_go o t rest).1,
       (fetch_movie_details_go o t rest).2) := by
  conv_lhs => rw [fetch_movie_details_go]
  rw [h]
  simp [hr]

/-- Page oracle whose single page lists only entity 5. -/
def c5_pageO2 : Nat → Nat → ApiResp PageData := fun p _ =>
  if p = 1 then .ok ⟨[⟨5, some "2020-01-01"⟩], some 1⟩ else .ok ⟨[], some 1⟩

/-- Detail oracle that always fails with a transport error. -/
def c5_detO2 : Nat → Nat → ApiResp Details := fun _ _ => .netErr

/-- C5 (amended): exhausting the three detail attempts on rate-limit
responses yields `None` — indistinguishable from not-found, silently
skipped by the caller (see the counterexample for the skip) — whereas
exhausting them on transport errors raises, and that exception is fatal to
the discovery range. -/
theorem detail_retry_exhaustion_amended :
    (∀ (o : Nat → ApiResp Details) (t : Nat),
      o 0 = .http 429 → o 1 = .http 429 → o 2 = .http 429 →
      (fetch_movie_details o t).2 = .ok none) ∧
    (∀ (o : Nat → ApiResp Details) (t : Nat),
      o 0 = .netErr → o 1 = .netErr → o 2 = .netErr →
      (fetch_movie_details o t).2 = .error .requestError) ∧
    (fetch_catalog_by_date_range c5_pageO2 c5_detO2 10 "t" []).err =
      some .requestError := by
  refine ⟨?_, ?_, rfl⟩
  · intro o t h0 h1 h2
    show (fetch_movie_details_go o t [0, 1, 2]).2 = .ok none
    rw [details_go_step_429 o t 0 [1, 2] h0]
    show (fetch_movie_details_go o t [1, 2]).2 = .ok none
    rw [details_go_step_429 o t 1 [2] h1]
    show (fetch_movie_details_go o t [2]).2 = .ok none
    conv_lhs => rw [fetch_movie_details_go]
    rw [h2]
    rfl
  · intro o t h0 h1 h2
    show (fetch_movie_details_go o t [0, 1, 2]).2 = .error .requestError
    rw [details_go_step_netErr o t 0 [1, 2] h0 (by simp)]
    show (fetch_movie_details_go o t [1, 2]).2 = .error .requestError
    rw [details_go_step_netErr o t 1 [2] h1 (by simp)]
    show (fetch_movie_details_go o t [2]).2 = .error .requestError
    conv_lhs => rw [fetch_movie_details_go]
    rw [h2]
    rfl

/-- Concrete instance of C5 (amended): both exhaustion modes evaluated at
always-429 and always-transport-error oracles. -/
theorem detail_retry_exhaustion_amended_witness :
    (fetch_movie_details (fun _ => .http 429) 11).2 = .ok none ∧
    (fetch_movie_details (fun _ => .netErr) 11).2 = .error .requestError :=
  ⟨detail_retry_exhaustion_amended.1 (fun _ => .http 429) 11 rfl rfl rfl,
   detail_retry_exhaustion_amended.2.1 (fun _ => .netErr) 11 rfl rfl rfl⟩

/-! ## C3: the source-reported page cap never constrains the loop -/

/-- Page oracle for the C3 run: page 1 is non-empty (one entry without a
release date, so no detail call follows) and reports exactly 1 total page;
every later page is empty. -/
def c3_pageO : Nat → Nat → ApiResp PageData := fun p _ =>
  if p = 1 then .ok ⟨[⟨7, none⟩], some 1⟩ else .ok ⟨[], some 1⟩

/-- Detail oracle for the C3 run (never reached). -/
def c3_detO : Nat → Nat → ApiResp Details := fun _ _ => .netErr

/-- C3 fails on the code: with the source reporting `total_pages = 1` on
page 1, discovery still requests page 2 (stopping only because page 2 is
empty).  The `for page in range(1, total_pages + 1)` bound is evaluated
once, before `total_pages = min(data.get("total_pages", 500), 500)` is
assigned, so the computed cap — clearly intended to bound the loop —
never does. -/
theorem page_cap_ignored_requests_page_beyond_total :
    c3_pageO 1 0 = .ok ⟨[⟨7, none⟩], some 1⟩ ∧
    pageRequests (fetch_catalog_by_date_range c3_pageO c3_detO 10 "t" []).log =
      [1, 2] :=
  ⟨rfl, rfl⟩

/-! ## C1: availability replace is exact and failure-atomic -/

/-- After `store_providers` for an entity, the rows stored for that entity
are exactly the fetched providers. -/
theorem rowsFor_store_self (mid : Nat) (ps : List Provider) (now : String)
    (tbl : List AvailRow) :
    rowsFor mid (store_providers mid ps now tbl) =
      ps.map (providerRow mid now) := by
  unfold rowsFor store_providers
  rw [List.filter_append]
  have h1 := filter_filter_nil (fun r : AvailRow => r.movie_id ≠ mid)
    (fun r : AvailRow => r.movie_id = mid) (by intro a ha; simpa using ha) tbl
  rw [h1, List.nil_append]
  rw [List.filter_eq_self.mpr]
  intro a ha
  rcases List.mem_map.mp ha with ⟨p, _, rfl⟩
  simp [providerRow]

/-- `store_providers` for one entity leaves every other entity's rows
unchanged. -/
theorem rowsFor_store_other (mid mid2 : Nat) (h : mid2 ≠ mid)
    (ps : List Provider) (now : String) (tbl : List AvailRow) :
    rowsFor mid (store_providers mid2 ps now tbl) = rowsFor mid tbl := by
  unfold rowsFor store_providers
  rw [List.filter_append]
  have h1 := filter_filter_of_imp (fun r : AvailRow => r.movie_id ≠ mid2)
    (fun r : AvailRow => r.movie_id = mid)
    (by
      intro a ha
      simp only [decide_eq_true_eq] at ha ⊢
      rw [ha]
      exact Ne.symm h) tbl
  rw [h1]
  have h2 : (ps.map (providerRow mid2 now)).filter
      (fun r : AvailRow => r.movie_id = mid) = [] := by
    rw [List.filter_eq_nil_iff]
    intro a ha
    rcases List.mem_map.mp ha with ⟨p, _, rfl⟩
    simp [providerRow, h]
  rw [h2, List.append_nil]

/-- Entities whose ids never occur in the remaining scan cannot have their
stored rows changed by the rest of the provider loop, whatever the oracle
does. -/
theorem update_providers_go_preserves (o : Nat → Except Unit WatchData)
    (now : String) (E : Nat) :
    ∀ (movies : List MovieRow) (tbl : List AvailRow),
      (∀ m ∈ movies, m.id ≠ E) →
      rowsFor E (update_providers_go o now movies tbl).2 = rowsFor E tbl := by
  intro movies
  induction movies with
  | nil => intro tbl _; rfl
  | cons m rest ih =>
    intro tbl hids
    have hm : m.id ≠ E := hids m (List.mem_cons_self m rest)
    have hrest : ∀ x ∈ rest, x.id ≠ E := fun x hx => hids x (List.mem_cons_of_mem m hx)
    unfold update_providers_go
    cases ht : m.tmdb_id with
    | none => exact ih tbl hrest
    | some t =>
      by_cases h0 : t = 0
      · simp only [h0, if_pos rfl]
        exact ih tbl hrest
      · simp only [if_neg h0]
        cases hf : fetch_watch_providers (o t) with
        | error e => rfl
        | ok providers =>
          rw [ih (store_providers m.id providers now tbl) hrest,
            rowsFor_store_other E m.id hm providers now tbl]

/-- C1: for an entity `r` reached by the provider refresh (every earlier
scanned entity's fetch succeeded), a successful fetch leaves exactly the
fetched provider rows stored for `r` — nothing of the prior snapshot set
survives — while a failed fetch leaves `r`'s prior snapshot set entirely
unchanged (the delete-then-insert never ran for `r`). -/
theorem availability_replace_exact_and_atomic
    (o : Nat → Except Unit WatchData) (now : String) (r : MovieRow) (t : Nat)
    (ht : r.tmdb_id = some t) (ht0 : t ≠ 0) :
    ∀ (pre post : List MovieRow) (avail : List AvailRow),
      ((pre ++ r :: post).map (·.id)).Nodup →
      (∀ m ∈ pre, ∀ u, m.tmdb_id = some u → u ≠ 0 → ∃ w, o u = .ok w) →
      (∀ provs, fetch_watch_providers (o t) = .ok provs →
        rowsFor r.id (update_providers_data o (pre ++ r :: post) avail now).2 =
          provs.map (providerRow r.id now)) ∧
      (o t = .error () →
        rowsFor r.id (update_providers_data o (pre ++ r :: post) avail now).2 =
          rowsFor r.id avail) := by
  intro pre
  unfold update_providers_data
  induction pre with
  | nil =>
    intro post avail hnd hpre
    have hpost : ∀ m ∈ post, m.id ≠ r.id := by
      intro m hm
      simp only [List.nil_append, List.map_cons, List.nodup_cons] at hnd
      intro he
      exact hnd.1 (List.mem_map.mpr ⟨m, hm, he⟩)
    constructor
    · intro provs hf
      rw [List.nil_append]
      unfold update_providers_go
      rw [ht]
      simp only [if_neg ht0, hf]
      rw [update_providers_go_preserves o now r.id post _ hpost,
        rowsFor_store_self r.id provs now avail]
    · intro herr
      rw [List.nil_append]
      unfold update_providers_go
      rw [ht]
      simp only [if_neg ht0]
      have : fetch_watch_providers (o t) = .error () := by
        rw [herr]; rfl
      rw [this]
  | cons m pre2 ih =>
    intro post avail hnd hpre
    have hmr : m.id ≠ r.id := by
      simp only [List.cons_append, List.map_cons, List.nodup_cons] at hnd
      intro he
      exact hnd.1 (List.mem_map.mpr ⟨r, by simp, he.symm⟩)
    have hnd2 : ((pre2 ++ r :: post).map (·.id)).Nodup := by
      simp only [List.cons_append, List.map_cons, List.nodup_cons] at hnd
      exact hnd.2
    have hpre2 : ∀ x ∈ pre2, ∀ u, x.tmdb_id = some u → u ≠ 0 → ∃ w, o u = .ok w :=
      fun x hx => hpre x (List.mem_cons_of_mem m hx)
    rw [List.cons_append]
    unfold update_providers_go
    cases htm : m.tmdb_id with
    | none => exact ih post avail hnd2 hpre2
    | some u =>
      by_cases h0 : u = 0
      · simp only [h0, if_pos rfl]
        exact ih post avail hnd2 hpre2
      · simp only [if_neg h0]
        rcases hpre m (List.mem_cons_self m pre2) u htm h0 with ⟨w, hw⟩
        rw [hw]
        cases hf : fetch_watch_providers (.ok w) with
        | error e => cases hf
        | ok provs0 =>
          have step := ih post (store_providers m.id provs0 now avail) hnd2 hpre2
          refine ⟨step.1, ?_⟩
          intro herr
          rw [step.2 herr, rowsFor_store_other r.id m.id hmr provs0 now avail]

/-- Watch-providers oracle for the C1 instance: entity 5 succeeds with one
flatrate provider, every other id fails in transport. -/
def c1_o : Nat → Except Unit WatchData := fun u =>
  if u = 5 then .ok ⟨[("US", ⟨some [⟨9, "N", some 1⟩], none, none, none, none⟩)]⟩
  else .error ()

/-- Concrete instance of C1: for a store previously holding an old
snapshot row for entity 1, a successful refresh replaces it by exactly the
fetched provider row. -/
theorem availability_replace_exact_and_atomic_witness :
    rowsFor 1 (update_providers_data c1_o
      [{ id := 1, tmdb_id := some 5, imdb_id := none, title := none,
         original_title := none, year := none, overview := none,
         runtime := none, popularity := none, tmdb_vote_avg := none,
         tmdb_vote_count := none, poster_path := none, created_at := none,
         omdb_last_updated := none, imdb_rating := none, imdb_votes := none,
         omdb_raw_json := none }]
      [⟨1, "US", 3, "Old", none, "rent", "t0"⟩] "now").2 =
      [providerRow 1 "now" ⟨9, "N", some 1, "flatrate"⟩] :=
  (availability_replace_exact_and_atomic c1_o "now"
    { id := 1, tmdb_id := some 5, imdb_id := none, title := none,
      original_title := none, year := none, overview := none,
      runtime := none, popularity := none, tmdb_vote_avg := none,
      tmdb_vote_count := none, poster_path := none, created_at := none,
      omdb_last_updated := none, imdb_rating := none, imdb_votes := none,
      omdb_raw_json := none } 5 rfl (by decide)
    [] [] [⟨1, "US", 3, "Old", none, "rent", "t0"⟩] (by decide)
    (by intro m hm; cases hm)).1
    [⟨9, "N", some 1, "flatrate"⟩] rfl

/-! ## Batch lemmas for the OMDb enricher -/

/-- With the `UPDATE`'s columns present, a batch can never raise: it always
returns a call count and a table. -/
theorem pmb_ok (schema : List String) (session : OmdbSession)
    (apiKey : Option String) (now : String) (tp bl : Nat)
    (hupd : colsPresent update_cols schema = true) :
    ∀ (rows : List MovieRow) (acc : Nat) (db : List MovieRow),
      ∃ c db2, process_movie_batch schema session apiKey now tp bl rows acc db =
        .ok (c, db2) := by
  intro rows
  induction rows with
  | nil => intro acc db; exact ⟨acc, db, rfl⟩
  | cons row rest ih =>
    intro acc db
    unfold process_movie_batch
    by_cases hb : bl ≤ tp + acc
    · rw [if_pos hb]
      exact ⟨acc, db, rfl⟩
    · rw [if_neg hb]
      cases hf : fetch_omdb_data session apiKey row.imdb_id row.title row.year with
      | error e => exact ⟨acc, db, rfl⟩
      | ok v =>
        rcases v with ⟨_ | d, reason⟩
        · exact ih (acc + 1) db
        · rw [hupd]
          simp only [if_pos rfl]
          exact ih (acc + 1) (update_movie_with_omdb row.id d now db)

/-- A batch never returns fewer calls than it started with nor more than
the budget headroom `budget_limit - total_processed` allows on top. -/
theorem pmb_count_le (schema : List String) (session : OmdbSession)
    (apiKey : Option String) (now : String) (tp bl : Nat) :
    ∀ (rows : List MovieRow) (acc : Nat) (db : List MovieRow) (c : Nat)
      (db2 : List MovieRow),
      process_movie_batch schema session apiKey now tp bl rows acc db = .ok (c, db2) →
      acc ≤ c ∧ c ≤ max acc (bl - tp) := by
  intro rows
  induction rows with
  | nil =>
    intro acc db c db2 h
    unfold process_movie_batch at h
    cases h
    exact ⟨Nat.le_refl _, Nat.le_max_left _ _⟩
  | cons row rest ih =>
    intro acc db c db2 h
    unfold process_movie_batch at h
    by_cases hb : bl ≤ tp + acc
    · rw [if_pos hb] at h
      cases h
      exact ⟨Nat.le_refl _, Nat.le_max_left _ _⟩
    · rw [if_neg hb] at h
      cases hf : fetch_omdb_data session apiKey row.imdb_id row.title row.year with
      | error e =>
        rw [hf] at h
        cases h
        exact ⟨Nat.le_refl _, Nat.le_max_left _ _⟩
      | ok v =>
        rw [hf] at h
        rcases v with ⟨_ | d, reason⟩
        · have := ih (acc + 1) db c db2 h
          omega
        · by_cases hu : colsPresent update_cols schema = true
          · rw [hu] at h
            simp only [if_pos rfl] at h
            have := ih (acc + 1) (update_movie_with_omdb row.id d now db) c db2 h
            omega
          · rw [Bool.not_eq_true] at hu
            rw [hu] at h
            simp only [Bool.false_eq_true, if_neg] at h
            cases h

/-- Under a transport-error-free session (for the batch's rows) the call
count is exact: one unit per row actually reached within the budget,
regardless of each lookup's success or failure. -/
theorem pmb_count_exact (schema : List String) (session : OmdbSession)
    (apiKey : Option String) (now : String) (tp bl : Nat)
    (hupd : colsPresent update_cols schema = true) :
    ∀ (rows : List MovieRow) (acc : Nat) (db : List MovieRow),
      (∀ row ∈ rows, ∃ v,
        fetch_omdb_data session apiKey row.imdb_id row.title row.year = .ok v) →
      ∃ db2, process_movie_batch schema session apiKey now tp bl rows acc db =
        .ok (max acc (min (bl - tp) (acc + rows.length)), db2) := by
  intro rows
  induction rows with
  | nil =>
    intro acc db _
    refine ⟨db, ?_⟩
    unfold process_movie_batch
    have hx : max acc (min (bl - tp) (acc + ([] : List MovieRow).length)) = acc := by
      simp only [List.length_nil, Nat.add_zero]
      omega
    rw [hx]
  | cons row rest ih =>
    intro acc db hok
    unfold process_movie_batch
    by_cases hb : bl ≤ tp + acc
    · rw [if_pos hb]
      refine ⟨db, ?_⟩
      have hx : max acc (min (bl - tp) (acc + (row :: rest).length)) = acc := by
        simp only [List.length_cons]
        omega
      rw [hx]
    · rw [if_neg hb]
      rcases hok row (List.mem_cons_self row rest) with ⟨v, hv⟩
      rw [hv]
      have hrest : ∀ x ∈ rest, ∃ v,
          fetch_omdb_data session apiKey x.imdb_id x.title x.year = .ok v :=
        fun x hx => hok x (List.mem_cons_of_mem row hx)
      have hx : max (acc + 1) (min (bl - tp) (acc + 1 + rest.length)) =
          max acc (min (bl - tp) (acc + (row :: rest).length)) := by
        simp only [List.length_cons]
        omega
      rcases v with ⟨_ | d, reason⟩
      · rcases ih (acc + 1) db hrest with ⟨db2, hdb2⟩
        refine ⟨db2, ?_⟩
        rw [hdb2, hx]
      · rw [hupd]
        simp only [if_pos rfl]
        rcases ih (acc + 1) (update_movie_with_omdb row.id d now db) hrest with ⟨db2, hdb2⟩
        refine ⟨db2, ?_⟩
        rw [hdb2, hx]
        simp

/-- A transport error at one row ends the batch right there: the units
already consumed are returned, nothing more is attempted. -/
theorem pmb_abort (schema : List String) (session : OmdbSession)
    (apiKey : Option String) (now : String) (tp bl : Nat)
    (hupd : colsPresent update_cols schema = true) :
    ∀ (pre : List MovieRow) (bad : MovieRow) (rest2 : List MovieRow)
      (acc : Nat) (db : List MovieRow),
      (∀ row ∈ pre, ∃ v,
        fetch_omdb_data session apiKey row.imdb_id row.title row.year = .ok v) →
      fetch_omdb_data session apiKey bad.imdb_id bad.title bad.year = .error () →
      tp + acc + pre.length < bl →
      ∃ db2, process_movie_batch schema session apiKey now tp bl
        (pre ++ bad :: rest2) acc db = .ok (acc + pre.length, db2) := by
  intro pre
  induction pre with
  | nil =>
    intro bad rest2 acc db _ hbad hlt
    rw [List.nil_append]
    unfold process_movie_batch
    rw [if_neg (by omega), hbad]
    exact ⟨db, by simp⟩
  | cons row pre2 ih =>
    intro bad rest2 acc db hok hbad hlt
    rw [List.cons_append]
    unfold process_movie_batch
    have hlt1 : ¬ bl ≤ tp + acc := by
      simp only [List.length_cons] at hlt
      omega
    rw [if_neg hlt1]
    rcases hok row (List.mem_cons_self row pre2) with ⟨v, hv⟩
    rw [hv]
    have hpre2 : ∀ x ∈ pre2, ∃ v,
        fetch_omdb_data session apiKey x.imdb_id x.title x.year = .ok v :=
      fun x hx => hok x (List.mem_cons_of_mem row hx)
    have hlt2 : tp + (acc + 1) + pre2.length < bl := by
      simp only [List.length_cons] at hlt
      omega
    have hx : acc + 1 + pre2.length = acc + (row :: pre2).length := by
      simp only [List.length_cons]
      omega
    rcases v with ⟨_ | d, reason⟩
    · rcases ih bad rest2 (acc + 1) db hpre2 hbad hlt2 with ⟨db2, hdb2⟩
      refine ⟨db2, ?_⟩
      rw [hdb2, hx]
    · rw [hupd]
      simp only [if_pos rfl]
      rcases ih bad rest2 (acc + 1) (update_movie_with_omdb row.id d now db)
        hpre2 hbad hlt2 with ⟨db2, hdb2⟩
      refine ⟨db2, ?_⟩
      rw [hdb2, hx]
      simp

/-- Insertion keeps the length. -/
theorem length_insertLe (le : MovieRow → MovieRow → Bool) (a : MovieRow) :
    ∀ l : List MovieRow, (insertLe le a l).length = l.length + 1 := by
  intro l
  induction l with
  | nil => rfl
  | cons b t ih =>
    unfold insertLe
    by_cases h : le a b
    · simp [h]
    · simp [h, ih]

/-- Sorting keeps the length. -/
theorem length_sortLe (le : MovieRow → MovieRow → Bool) :
    ∀ l : List MovieRow, (sortLe le l).length = l.length := by
  intro l
  induction l with
  | nil => rfl
  | cons a t ih =>
    unfold sortLe
    rw [length_insertLe, ih]
    rfl

/-- The Phase-1 query returns `min limit (number of unenriched rows)`
candidates. -/
theorem length_missingQuery (db : List MovieRow) (limit : Nat) :
    (missingQuery db limit).length =
      min limit ((db.filter (fun r => r.omdb_raw_json = none)).length) := by
  unfold missingQuery
  rw [List.length_take, length_sortLe]

/-- The Phase-2 query returns `min limit (number of enriched rows)`
candidates. -/
theorem length_refreshQuery (db : List MovieRow) (limit : Nat) :
    (refreshQuery db limit).length =
      min limit ((db.filter (fun r => r.omdb_raw_json ≠ none)).length) := by
  unfold refreshQuery
  rw [List.length_take, length_sortLe]

/-- The schema after `setup_database_schema` always contains the
timestamp column. -/
theorem setup_contains_last (schema : List String) :
    (setup_database_schema schema).contains "omdb_last_updated" = true := by
  unfold setup_database_schema
  by_cases h : schema.contains "omdb_last_updated"
  · rw [if_pos h]
    exact h
  · rw [if_neg h]
    simp

/-- The Phase-2 `SELECT`'s columns are present whenever the Phase-1
`SELECT`'s are (after the schema setup). -/
theorem refresh_cols_of_missing_cols (schema : List String)
    (h : colsPresent missing_select_cols (setup_database_schema schema) = true) :
    colsPresent refresh_select_cols (setup_database_schema schema) = true := by
  simp only [colsPresent, missing_select_cols, refresh_select_cols,
    List.all_cons, List.all_nil, Bool.and_true, Bool.and_eq_true] at h ⊢
  exact ⟨h.1, h.2.1, h.2.2.1, h.2.2.2.1, h.2.2.2.2, setup_contains_last schema⟩

/-- Characterization of a full enrichment run when the API key is present
and the schema supports both the `SELECT`s and the `UPDATE`: it succeeds,
Phase 1 is the batch over the missing-data query, Phase 2's limit is the
total budget minus Phase 1's actual calls, and Phase 2 selects the minimum
of that limit and the number of then-enriched rows. -/
theorem update_omdb_ratings_run (TOTAL SUB : Nat) (schema0 : List String)
    (session : OmdbSession) (apiKey : Option String) (now : String)
    (db : List MovieRow)
    (hkey : truthyStr apiKey = true)
    (hsel : colsPresent missing_select_cols (setup_database_schema schema0) = true)
    (hupd : colsPresent update_cols (setup_database_schema schema0) = true) :
    ∃ c1 db1 c2 db2,
      process_movie_batch (setup_database_schema schema0) session apiKey now 0 SUB
        (missingQuery db SUB) 0 db = .ok (c1, db1) ∧
      c1 ≤ SUB ∧ c2 ≤ TOTAL - c1 ∧
      update_omdb_ratings TOTAL SUB schema0 session apiKey now db =
        ⟨true, (missingQuery db SUB).length, c1, db1, TOTAL - c1,
          min (TOTAL - c1) ((db1.filter (fun x => x.omdb_raw_json ≠ none)).length),
          c2, db2⟩ := by
  rcases pmb_ok (setup_database_schema schema0) session apiKey now 0 SUB hupd
    (missingQuery db SUB) 0 db with ⟨c1, db1, h1⟩
  have hc1 : c1 ≤ SUB := by
    have := pmb_count_le (setup_database_schema schema0) session apiKey now 0 SUB
      (missingQuery db SUB) 0 db c1 db1 h1
    omega
  by_cases hpos : 0 < TOTAL - c1
  · rcases pmb_ok (setup_database_schema schema0) session apiKey now c1 TOTAL hupd
      (refreshQuery db1 (TOTAL - c1)) 0 db1 with ⟨c2, db2, h2⟩
    have hc2 : c2 ≤ TOTAL - c1 := by
      have := pmb_count_le (setup_database_schema schema0) session apiKey now c1
        TOTAL (refreshQuery db1 (TOTAL - c1)) 0 db1 c2 db2 h2
      omega
    refine ⟨c1, db1, c2, db2, h1, hc1, hc2, ?_⟩
    unfold update_omdb_ratings
    rw [if_neg (by simp [hkey]), if_neg (by simp [hsel]), h1]
    show (if 0 < TOTAL - c1 then _ else _) = _
    rw [if_pos hpos,
      if_neg (by simp [refresh_cols_of_missing_cols schema0 hsel]), h2]
    show EnrichResult.mk true (missingQuery db SUB).length c1 db1 (TOTAL - c1)
      (refreshQuery db1 (TOTAL - c1)).length c2 db2 = _
    rw [length_refreshQuery]
  · refine ⟨c1, db1, 0, db1, h1, hc1, Nat.zero_le _, ?_⟩
    unfold update_omdb_ratings
    rw [if_neg (by simp [hkey]), if_neg (by simp [hsel]), h1]
    show (if 0 < TOTAL - c1 then _ else _) = _
    rw [if_neg hpos]
    have hz : TOTAL - c1 = 0 := by omega
    rw [hz]
    simp

/-! ## C7: per-attempt budget accounting and batch abort -/

/-- C7: (i) with no transport error among its rows, a batch consumes
exactly one budget unit per attempted entity — `min (budget headroom)
(batch size)` — regardless of each lookup's success or failure; (ii) a
transport error at one entity ends that batch with exactly the units
already consumed; (iii) whatever the session does, a schema-complete run
still executes Phase 2 with limit `total - phase1` and its selection — a
Phase-1 abort neither corrupts the accounting nor prevents Phase 2. -/
theorem budget_unit_per_attempt_and_abort :
    (∀ (schema : List String) (session : OmdbSession) (apiKey : Option String)
      (now : String) (tp bl : Nat) (rows : List MovieRow) (db : List MovieRow),
      colsPresent update_cols schema = true →
      (∀ row ∈ rows, ∃ v,
        fetch_omdb_data session apiKey row.imdb_id row.title row.year = .ok v) →
      ∃ db2, process_movie_batch schema session apiKey now tp bl rows 0 db =
        .ok (min (bl - tp) rows.length, db2)) ∧
    (∀ (schema : List String) (session : OmdbSession) (apiKey : Option String)
      (now : String) (tp bl : Nat) (pre : List MovieRow) (bad : MovieRow)
      (rest2 : List MovieRow) (db : List MovieRow),
      colsPresent update_cols schema = true →
      (∀ row ∈ pre, ∃ v,
        fetch_omdb_data session apiKey row.imdb_id row.title row.year = .ok v) →
      fetch_omdb_data session apiKey bad.imdb_id bad.title bad.year = .error () →
      tp + pre.length < bl →
      ∃ db2, process_movie_batch schema session apiKey now tp bl
        (pre ++ bad :: rest2) 0 db = .ok (pre.length, db2)) ∧
    (∀ (TOTAL SUB : Nat) (schema0 : List String) (session : OmdbSession)
      (apiKey : Option String) (now : String) (db : List MovieRow),
      truthyStr apiKey = true →
      colsPresent missing_select_cols (setup_database_schema schema0) = true →
      colsPresent update_cols (setup_database_schema schema0) = true →
      (update_omdb_ratings TOTAL SUB schema0 session apiKey now db).success = true ∧
      (update_omdb_ratings TOTAL SUB schema0 session apiKey now db).phase2Limit =
        TOTAL - (update_omdb_ratings TOTAL SUB schema0 session apiKey now db).phase1Calls ∧
      (update_omdb_ratings TOTAL SUB schema0 session apiKey now db).phase2Selected =
        min ((update_omdb_ratings TOTAL SUB schema0 session apiKey now db).phase2Limit)
          (((update_omdb_ratings TOTAL SUB schema0 session apiKey now db).dbAfterPhase1.filter
            (fun x => x.omdb_raw_json ≠ none)).length)) := by
  refine ⟨?_, ?_, ?_⟩
  · intro schema session apiKey now tp bl rows db hupd hok
    rcases pmb_count_exact schema session apiKey now tp bl hupd rows 0 db hok with ⟨db2, h⟩
    refine ⟨db2, ?_⟩
    rw [h]
    have hx : max 0 (min (bl - tp) (0 + rows.length)) = min (bl - tp) rows.length := by
      omega
    rw [hx]
  · intro schema session apiKey now tp bl pre bad rest2 db hupd hok hbad hlt
    rcases pmb_abort schema session apiKey now tp bl hupd pre bad rest2 0 db hok hbad
      (by omega) with ⟨db2, h⟩
    refine ⟨db2, ?_⟩
    rw [h]
    have hx : 0 + pre.length = pre.length := by omega
    rw [hx]
  · intro TOTAL SUB schema0 session apiKey now db hkey hsel hupd
    rcases update_omdb_ratings_run TOTAL SUB schema0 session apiKey now db hkey hsel
      hupd with ⟨c1, db1, c2, db2, _, _, _, heq⟩
    rw [heq]
    exact ⟨rfl, rfl, rfl⟩

/-- The complete column set the OMDb stage assumes the `movie` table has
(catalog columns plus the three enrichment columns it reads and writes;
note C10: the repository itself never creates the latter). -/
def enriched_columns : List String :=
  init_db_columns ++ ["imdb_rating", "imdb_votes", "omdb_raw_json"]

/-- Session for the C7 instance: the id lookup for "a" reports a miss, its
title fallback misses too, the id lookup for "b" raises in transport. -/
def c7_session : OmdbSession := fun q =>
  match q with
  | .byId "a" => .ok ⟨200, ⟨some "False", some "Movie not found!", none, none, none, []⟩⟩
  | .byId _ => .error ()
  | .byTitle _ _ => .ok ⟨200, ⟨some "False", some "Movie not found!", none, none, none, []⟩⟩

/-- First batch row for the C7 instance: lookup fails on both paths (one
unit consumed). -/
def c7_row1 : MovieRow :=
  { id := 1, tmdb_id := some 10, imdb_id := some "a", title := some "T1",
    original_title := none, year := some "2001", overview := none,
    runtime := none, popularity := none, tmdb_vote_avg := none,
    tmdb_vote_count := none, poster_path := none, created_at := none,
    omdb_last_updated := none, imdb_rating := none, imdb_votes := none,
    omdb_raw_json := none }

/-- Second batch row for the C7 instance: its lookup raises in transport. -/
def c7_row2 : MovieRow :=
  { id := 2, tmdb_id := some 11, imdb_id := some "b", title := some "T2",
    original_title := none, year := some "2002", overview := none,
    runtime := none, popularity := none, tmdb_vote_avg := none,
    tmdb_vote_count := none, poster_path := none, created_at := none,
    omdb_last_updated := none, imdb_rating := none, imdb_votes := none,
    omdb_raw_json := none }

/-- Concrete instance of C7: a failed-but-completed lookup consumes its
unit, the following transport error aborts the batch, and the batch
reports exactly one consumed call. -/
theorem budget_unit_per_attempt_and_abort_witness :
    ∃ db2, process_movie_batch enriched_columns c7_session (some "k") "now" 0 5
      ([c7_row1] ++ c7_row2 :: []) 0 [] = .ok ([c7_row1].length, db2) :=
  budget_unit_per_attempt_and_abort.2.1 enriched_columns c7_session (some "k")
    "now" 0 5 [c7_row1] c7_row2 [] [] (by decide)
    (by
      intro row hrow
      rcases List.mem_singleton.mp hrow with rfl
      exact ⟨_, rfl⟩)
    rfl (by decide)

/-! ## C2: the two-phase budget arithmetic -/

/-- Session for the C2 counterexample (never consulted: the store is
empty). -/
def c2_session : OmdbSession := fun _ => .error ()

/-- Counterexample to C2 as stated: on an empty store with total budget 5
and Phase-1 sub-budget 3, Phase 1 consumes 0 calls, so the claimed Phase-2
candidate count would be 5 − 0 = 5 — but Phase 2 selects 0 candidates
(there is no enriched row to refresh). -/
theorem phase2_count_not_equal_remaining :
    (update_omdb_ratings 5 3 enriched_columns c2_session (some "k") "now"
      []).phase1Calls = 0 ∧
    (update_omdb_ratings 5 3 enriched_columns c2_session (some "k") "now"
      []).phase2Selected = 0 ∧
    ¬ ((update_omdb_ratings 5 3 enriched_columns c2_session (some "k") "now"
      []).phase2Selected =
      5 - (update_omdb_ratings 5 3 enriched_columns c2_session (some "k") "now"
        []).phase1Calls) := by
  exact ⟨rfl, rfl, by decide⟩

/-- C2 (amended): attempts across both phases never exceed the total
budget; Phase 2's selection **limit** is `total − Phase-1 actual attempts`
(clamped at zero over `Nat`), and the number of candidates actually
selected is the minimum of that limit and the number of enriched entities
then in the store; in the concrete scenario (total 5, sub-budget 3, 4
entities missing data, no transport error) Phase 1 attempts exactly 3 and
Phase 2 selects and attempts at most 2. -/
theorem enrichment_budget_amended (TOTAL SUB : Nat) (schema0 : List String)
    (session : OmdbSession) (apiKey : Option String) (now : String)
    (db : List MovieRow)
    (hkey : truthyStr apiKey = true)
    (hsel : colsPresent missing_select_cols (setup_database_schema schema0) = true)
    (hupd : colsPresent update_cols (setup_database_schema schema0) = true)
    (hsub : SUB ≤ TOTAL) :
    ((update_omdb_ratings TOTAL SUB schema0 session apiKey now db).phase1Calls +
      (update_omdb_ratings TOTAL SUB schema0 session apiKey now db).phase2Calls
        ≤ TOTAL) ∧
    ((update_omdb_ratings TOTAL SUB schema0 session apiKey now db).phase2Limit =
      TOTAL -
        (update_omdb_ratings TOTAL SUB schema0 session apiKey now db).phase1Calls) ∧
    ((update_omdb_ratings TOTAL SUB schema0 session apiKey now db).phase2Selected =
      min ((update_omdb_ratings TOTAL SUB schema0 session apiKey now db).phase2Limit)
        (((update_omdb_ratings TOTAL SUB schema0
          session apiKey now db).dbAfterPhase1.filter
            (fun x => x.omdb_raw_json ≠ none)).length)) ∧
    (TOTAL = 5 → SUB = 3 →
      (∀ row ∈ missingQuery db SUB, ∃ v,
        fetch_omdb_data session apiKey row.imdb_id row.title row.year = .ok v) →
      (db.filter (fun r => r.omdb_raw_json = none)).length = 4 →
      (update_omdb_ratings TOTAL SUB schema0 session apiKey now db).phase1Calls = 3 ∧
      (update_omdb_ratings TOTAL SUB schema0 session apiKey now db).phase2Selected ≤ 2 ∧
      (update_omdb_ratings TOTAL SUB schema0 session apiKey now db).phase2Calls ≤ 2) := by
  rcases update_omdb_ratings_run TOTAL SUB schema0 session apiKey now db hkey hsel
    hupd with ⟨c1, db1, c2, db2, h1, hc1, hc2, heq⟩
  rw [heq]
  have hc1v : ∀ (hnr : ∀ row ∈ missingQuery db SUB, ∃ v,
      fetch_omdb_data session apiKey row.imdb_id row.title row.year = .ok v),
      c1 = max 0 (min (SUB - 0) (0 + (missingQuery db SUB).length)) := by
    intro hnr
    rcases pmb_count_exact (setup_database_schema schema0) session apiKey now 0 SUB
      hupd (missingQuery db SUB) 0 db hnr with ⟨dbx, hx⟩
    rw [h1] at hx
    exact (Prod.mk.injEq _ _ _ _).mp (Except.ok.injEq _ _ |>.mp hx) |>.1
  refine ⟨?_, rfl, rfl, ?_⟩
  · show c1 + c2 ≤ TOTAL
    omega
  · intro h5 h3 hnr h4
    subst h5
    subst h3
    have hlen : (missingQuery db 3).length = 3 := by
      rw [length_missingQuery, h4]
      decide
    have hc13 : c1 = 3 := by
      have := hc1v hnr
      rw [hlen] at this
      omega
    refine ⟨hc13, ?_, ?_⟩
    · show min (5 - c1) ((db1.filter (fun x => x.omdb_raw_json ≠ none)).length) ≤ 2
      have : 5 - c1 = 2 := by omega
      rw [this]
      exact Nat.min_le_left _ _
    · show c2 ≤ 2
      omega

/-- An unenriched catalog row with a title but no secondary id (for the C2
scenario). -/
def mkC2Row (i : Nat) (title : String) : MovieRow :=
  { id := i, tmdb_id := some i, imdb_id := none, title := some title,
    original_title := none, year := some "2001", overview := none,
    runtime := none, popularity := none, tmdb_vote_avg := none,
    tmdb_vote_count := none, poster_path := none, created_at := some "t0",
    omdb_last_updated := none, imdb_rating := none, imdb_votes := none,
    omdb_raw_json := none }

/-- The C2 scenario's store: four entities lacking rating data. -/
def c2_db : List MovieRow :=
  [mkC2Row 1 "A", mkC2Row 2 "B", mkC2Row 3 "C", mkC2Row 4 "D"]

/-- The C2 scenario's session: every lookup completes with an HTTP 404
(an unsuccessful but exception-free attempt). -/
def c2_sess2 : OmdbSession := fun _ =>
  .ok ⟨404, ⟨some "False", some "Movie not found!", none, none, none, []⟩⟩

/-- Concrete instance of C2 (amended): the scenario with budget 5,
sub-budget 3 and four unenriched rows — Phase 1 attempts 3, Phase 2
selects and attempts at most 2. -/
theorem enrichment_budget_amended_witness :
    (update_omdb_ratings 5 3 enriched_columns c2_sess2 (some "k") "now"
      c2_db).phase1Calls = 3 ∧
    (update_omdb_ratings 5 3 enriched_columns c2_sess2 (some "k") "now"
      c2_db).phase2Selected ≤ 2 ∧
    (update_omdb_ratings 5 3 enriched_columns c2_sess2 (some "k") "now"
      c2_db).phase2Calls ≤ 2 :=
  (enrichment_budget_amended 5 3 enriched_columns c2_sess2 (some "k") "now"
    c2_db rfl (by decide) (by decide) (by decide)).2.2.2 rfl rfl
    (by
      intro row hrow
      have he : missingQuery c2_db 3 = [mkC2Row 1 "A", mkC2Row 2 "B", mkC2Row 3 "C"] := by
        decide
      rw [he] at hrow
      simp only [List.mem_cons, List.not_mem_nil, or_false] at hrow
      rcases hrow with rfl | rfl | rfl <;> exact ⟨_, rfl⟩)
    (by decide)

/-! ## C10: enrichment always fails on the catalog-built schema -/

/-- On the schema created by `init_db` alone, an enrichment run is the
constant failure result: the Phase-1 `SELECT` references the
never-created `omdb_raw_json` column and raises. -/
theorem update_omdb_ratings_init_schema (TOTAL SUB : Nat)
    (session : OmdbSession) (apiKey : Option String) (now : String)
    (db : List MovieRow) :
    update_omdb_ratings TOTAL SUB init_db_columns session apiKey now db =
      ⟨false, 0, 0, db, 0, 0, 0, db⟩ := by
  unfold update_omdb_ratings
  by_cases hkey : truthyStr apiKey = true
  · rw [if_neg (by simp [hkey])]
    rfl
  · rw [if_pos (by simp [hkey])]

/-- C10: for every store whose `movie` table has exactly the columns
`init_db` creates, every enrichment run — whatever the session, API key,
budgets or row contents — returns failure, changes no row, and makes no
lookup call: the schema check adds only `omdb_last_updated` (already
present), while the run's first query needs `omdb_raw_json`, which neither
`init_db` nor the schema check ever creates. -/
theorem enrichment_always_fails_on_init_schema (TOTAL SUB : Nat)
    (session : OmdbSession) (apiKey : Option String) (now : String)
    (db : List MovieRow) :
    ("omdb_raw_json" ∉ init_db_columns) ∧
    setup_database_schema init_db_columns = init_db_columns ∧
    (update_omdb_ratings TOTAL SUB init_db_columns session apiKey now db).success
      = false ∧
    (update_omdb_ratings TOTAL SUB init_db_columns session apiKey now db).db = db ∧
    (update_omdb_ratings TOTAL SUB init_db_columns session apiKey now db).phase1Calls
      = 0 ∧
    (update_omdb_ratings TOTAL SUB init_db_columns session apiKey now db).phase2Calls
      = 0 := by
  rw [update_omdb_ratings_init_schema]
  exact ⟨by decide, rfl, rfl, rfl, rfl, rfl⟩

end TopStreamingMovies
